import Mathlib

/-!
Shallow embedding of the Retail-Analytics-Copilot hybrid query-answering
orchestrator (`src/agent/graph_hybrid.py`, `src/agent/tools/sql_validator.py`,
`src/agent/tools/sqlite_tool.py`, `src/agent/rag/retrieval.py`,
`src/run_agent_hybrid.py`).

Python strings are modelled over `List Char` at the ASCII level: `str.lower`,
`str.strip`, the regex classes `\w` and `\s`, and substring containment are
embedded as character-list operations.  The external oracle (dspy predictions),
the TF-IDF similarity numerics, and the live database are modelled as explicit
parameters (`Oracles`, similarity lists, schema catalogs); everything the
repository computes from those inputs is embedded from the source.
-/

/-- Python `\w` (ASCII): letters, digits, underscore. -/
def isWordChar (c : Char) : Bool := c.isAlphanum || c == '_'

/-- Case-insensitive character comparison, as produced by `re.IGNORECASE`
(ASCII).  The right argument is the (lowercase) pattern character. -/
def ciEq (c pat : Char) : Bool := c.toLower == pat

/-- Python `str.lower()` (ASCII): per-character lowering. -/
def pyLower (s : String) : String := String.mk (s.data.map Char.toLower)

/-- Drop whitespace from both ends of a character list. -/
def stripChars (l : List Char) : List Char :=
  ((l.dropWhile Char.isWhitespace).reverse.dropWhile Char.isWhitespace).reverse

/-- Python `str.strip()` (ASCII whitespace). -/
def pyStrip (s : String) : String := String.mk (stripChars s.data)

/-- Python `pat in s` substring containment. -/
def strContains (s pat : String) : Bool := decide (pat.data <:+: s.data)

/-- Python slice `l[-k:]` for a nonnegative `k`: for `k = 0` the slice
`[-0:]` is `[0:]`, the whole list; otherwise the last `min k (length l)`
elements. -/
def lastSlice (l : List α) (k : ℕ) : List α :=
  if k = 0 then l else l.drop (l.length - k)

-- ----------------------------------------------------------------------
-- Strategy Router (`router_node` post-processing, graph_hybrid.py:26-40)
-- ----------------------------------------------------------------------

/-- The router's normalization of the oracle's free-text strategy output:
`pred.strategy.lower().strip()`, then keyword containment
(graph_hybrid.py:31-37). -/
def normalizeStrategy (raw : String) : String :=
  let strategy := pyStrip (pyLower raw)
  if strContains strategy "sql" && strContains strategy "rag" then "hybrid"
  else if strContains strategy "sql" then "sql"
  else "rag"

-- ----------------------------------------------------------------------
-- Document retrieval (`Retriever.search`, retrieval.py:59-76)
-- ----------------------------------------------------------------------

/-- A chunk of the in-memory document index (retrieval.py:45-49). -/
structure Chunk where
  id : String
  content : String
  source : String
deriving DecidableEq, Repr

/-- A retrieval result: a chunk copied together with its similarity score
(retrieval.py:72-74). -/
structure RetrievedChunk where
  id : String
  content : String
  source : String
  score : ℚ
deriving DecidableEq, Repr

/-- `similarities[i]` lookup (out-of-range reads never occur when the
similarity list matches the corpus). -/
def simsAt (sims : List ℚ) (i : ℕ) : ℚ := sims.getD i 0

/-- `Retriever.search` (retrieval.py:59-76).  `chunks` is the loaded corpus,
`sims` the cosine-similarity vector of the query against the chunk vectors
(the TF-IDF numerics are external input).  `argsort` ascending, Python slice
`[-top_k:]`, reverse, then keep only strictly positive similarities, copying
each chunk with its score. -/
def Retriever.search (chunks : List Chunk) (sims : List ℚ) (top_k : ℕ) :
    List RetrievedChunk :=
  if chunks.isEmpty then [] else
  let idxAsc : List (Fin chunks.length) := (List.finRange chunks.length).insertionSort
    (fun i j => simsAt sims i ≤ simsAt sims j)
  let top : List (Fin chunks.length) := (lastSlice idxAsc top_k).reverse
  (top.filter (fun (i : Fin chunks.length) => decide (0 < simsAt sims i))).map
    (fun (i : Fin chunks.length) =>
      { id := (chunks.get i).id, content := (chunks.get i).content,
        source := (chunks.get i).source, score := simsAt sims i })

-- ----------------------------------------------------------------------
-- Regex scanners used by the validator and the SQL generator.
-- Each embeds one `re` pattern with Python's leftmost, non-overlapping
-- `findall`/`search`/`sub` semantics.  Scanners that skip past a successful
-- match take a fuel argument; they consume at least one character per step,
-- so fuel `= length of the input` never runs out.
-- ----------------------------------------------------------------------

/-- Head match for `\bWITH\b` (case-insensitive): the current position starts
`WITH` and the following character, if any, is not a word character.  The
word boundary on the left is checked by the caller. -/
def withAt (l : List Char) : Bool :=
  match l with
  | a :: b :: c :: d :: r =>
    ciEq a 'w' && ciEq b 'i' && ciEq c 't' && ciEq d 'h' &&
      (match r with | [] => true | x :: _ => !isWordChar x)
  | _ => false

/-- `re.search(r'\bWITH\b', sql, re.IGNORECASE)` (sql_validator.py:46).
The Bool argument is whether the previous character was a word character
(word-boundary tracking; `false` at the start of the string). -/
def hasWithWord : Bool → List Char → Bool
  | _, [] => false
  | prevW, c :: rest =>
    (!prevW && isWordChar c && withAt (c :: rest)) || hasWithWord (isWordChar c) rest

/-- Head match for `\b(\w+)\s+AS\s*\(` (case-insensitive): greedy word run,
at least one whitespace, `AS`, any whitespace, `(`.  Returns the captured
word and the rest of the input after the match. -/
def cteAt (l : List Char) : Option (List Char × List Char) :=
  let w := l.takeWhile isWordChar
  let r1 := l.dropWhile isWordChar
  if w.isEmpty then none else
  let sp := r1.takeWhile Char.isWhitespace
  let r2 := r1.dropWhile Char.isWhitespace
  if sp.isEmpty then none else
  match r2 with
  | a :: s :: r3 =>
    if ciEq a 'a' && ciEq s 's' then
      match r3.dropWhile Char.isWhitespace with
      | '(' :: r5 => some (w, r5)
      | _ => none
    else none
  | _ => none

/-- `re.findall(r'\b(\w+)\s+AS\s*\(', sql, re.IGNORECASE)`
(sql_validator.py:49).  Fuel-indexed scan; the Bool is the word-boundary
state as in `hasWithWord`.  After a match the scan resumes after the
consumed `(`. -/
def scanCTEs : ℕ → Bool → List Char → List String
  | 0, _, _ => []
  | _, _, [] => []
  | fuel + 1, prevW, c :: rest =>
    if !prevW && isWordChar c then
      match cteAt (c :: rest) with
      | some (w, r) => String.mk w :: scanCTEs fuel false r
      | none => scanCTEs fuel (isWordChar c) rest
    else scanCTEs fuel (isWordChar c) rest

/-- Opening quote class `[`"\[]` of the table pattern. -/
def isOpenQ (c : Char) : Bool := c == '`' || c == '"' || c == '['

/-- Closing quote class `[`"\]]` of the table pattern (also the complement
of the content class `[^`"\]]`). -/
def isCloseQ (c : Char) : Bool := c == '`' || c == '"' || c == ']'

/-- Head match for `FROM|JOIN` (case-insensitive, 4 characters); returns the
rest after the keyword. -/
def fromJoinKw (l : List Char) : Option (List Char) :=
  match l with
  | a :: b :: c :: d :: r =>
    if (ciEq a 'f' && ciEq b 'r' && ciEq c 'o' && ciEq d 'm') ||
       (ciEq a 'j' && ciEq b 'o' && ciEq c 'i' && ciEq d 'n') then some r else none
  | _ => none

/-- Head match for `\b(?:FROM|JOIN)\s+(?:[`"\[]([^`"\]]+)[`"\]]|(\w+))`:
keyword, at least one whitespace, then either a quoted name (group 1) or a
bare word (group 2).  Returns the flattened capture (`m[0] if m[0] else
m[1]`, sql_validator.py:61), the rest after the match, and whether the last
consumed character is a word character (boundary state for the resumed
scan). -/
def tableAt (l : List Char) : Option (List Char × List Char × Bool) :=
  match fromJoinKw l with
  | none => none
  | some r =>
    let sp := r.takeWhile Char.isWhitespace
    let r1 := r.dropWhile Char.isWhitespace
    if sp.isEmpty then none else
    match r1 with
    | [] => none
    | q :: r2 =>
      if isOpenQ q then
        let content := r2.takeWhile (fun c => !isCloseQ c)
        match r2.dropWhile (fun c => !isCloseQ c) with
        | _ :: r4 => if content.isEmpty then none else some (content, r4, false)
        | [] => none
      else
        let w := r1.takeWhile isWordChar
        if w.isEmpty then none
        else some (w, r1.dropWhile isWordChar, true)

/-- `re.findall(table_pattern, sql, re.IGNORECASE)` flattened to the raw
table names (sql_validator.py:57-61). -/
def scanTables : ℕ → Bool → List Char → List String
  | 0, _, _ => []
  | _, _, [] => []
  | fuel + 1, prevW, c :: rest =>
    if !prevW && isWordChar c then
      match tableAt (c :: rest) with
      | some (t, r, ew) => String.mk t :: scanTables fuel ew r
      | none => scanTables fuel (isWordChar c) rest
    else scanTables fuel (isWordChar c) rest

/-- Head match for `\b(\w+)\.(\w+)\b`: word run, dot, word run.  The
trailing boundary holds automatically after a greedy word run. -/
def colAt (l : List Char) : Option (String × String × List Char) :=
  let w1 := l.takeWhile isWordChar
  let r1 := l.dropWhile isWordChar
  if w1.isEmpty then none else
  match r1 with
  | '.' :: r2 =>
    let w2 := r2.takeWhile isWordChar
    if w2.isEmpty then none
    else some (String.mk w1, String.mk w2, r2.dropWhile isWordChar)
  | _ => none

/-- `re.findall(r'\b(\w+)\.(\w+)\b', sql)` (sql_validator.py:93-94):
`alias.column` token pairs. -/
def scanCols : ℕ → Bool → List Char → List (String × String)
  | 0, _, _ => []
  | _, _, [] => []
  | fuel + 1, prevW, c :: rest =>
    if !prevW && isWordChar c then
      match colAt (c :: rest) with
      | some (a, b, r) => (a, b) :: scanCols fuel true r
      | none => scanCols fuel (isWordChar c) rest
    else scanCols fuel (isWordChar c) rest

-- ----------------------------------------------------------------------
-- SQL Validator (`SQLValidator.validate_sql`, sql_validator.py:33-117)
-- The schema catalog is passed explicitly: `validTables` models the
-- lowercased `self.valid_tables`, `validColumns` the lowercased column
-- sets `self.valid_columns.values()` in iteration order.
-- ----------------------------------------------------------------------

/-- `re.sub(r'([a-z])([A-Z])', r'\1 \2', t)` (sql_validator.py:75): insert a
space between a lowercase letter and the uppercase letter following it. -/
def camelSpace : List Char → List Char
  | a :: b :: rest =>
    if a.isLower && b.isUpper then a :: ' ' :: camelSpace (b :: rest)
    else a :: camelSpace (b :: rest)
  | l => l

/-- Python `s.replace(' ', '')`: remove space characters (only `' '`). -/
def dropSpaces (s : String) : String := String.mk (s.data.filter (fun c => c != ' '))

/-- The three table-matching strategies of sql_validator.py:71-86, applied to
an already-stripped candidate name: exact case-insensitive match,
camelCase-to-space-separated transform, and space-stripped comparison. -/
def tableMatches (validTables : List String) (cleanTable : String) : Bool :=
  let tableLower := pyLower cleanTable
  let spacedTable := pyLower (String.mk (camelSpace cleanTable.data))
  let tableNoSpace := dropSpaces tableLower
  validTables.any (fun validTable =>
    tableLower == validTable || spacedTable == validTable ||
      tableNoSpace == dropSpaces validTable)

/-- CTE names extracted by sql_validator.py:45-51: computed only when the
query contains a `WITH` word, else empty. -/
def cteNamesOf (sql : String) : List String :=
  if hasWithWord false sql.data then scanCTEs sql.data.length false sql.data else []

/-- Raw table names found after `FROM`/`JOIN` (sql_validator.py:57-61). -/
def foundTablesOf (sql : String) : List String :=
  scanTables sql.data.length false sql.data

/-- The found tables that produce a "does not exist" error: not skipped as a
CTE name and matched by no strategy (sql_validator.py:63-89).  Elements keep
the raw captured spelling used in the error message. -/
def missingTables (validTables : List String) (sql : String) : List String :=
  (foundTablesOf sql).filter (fun t =>
    let cleanTable := pyStrip t
    !((cteNamesOf sql).map pyLower).contains (pyLower cleanTable) &&
      !tableMatches validTables cleanTable)

/-- Lexicographically sorted copy of a list of strings (Python `sorted`). -/
def sortedStrings (l : List String) : List String :=
  l.insertionSort (fun a b => a ≤ b)

/-- The error emitted for an unknown table (sql_validator.py:89). -/
def tableErrString (validTables : List String) (t : String) : String :=
  "Table '" ++ t ++ "' does not exist in schema. Valid tables: " ++
    String.intercalate ", " (sortedStrings validTables)

/-- `column_lower in table_cols` over any table's column set
(sql_validator.py:100-104). -/
def columnKnown (validColumns : List (List String)) (colLower : String) : Bool :=
  validColumns.any (fun cols => cols.contains colLower)

/-- `_find_similar_columns` (sql_validator.py:119-131): columns of any table
that contain the unmatched name or are contained in it, first 3.  The
union's iteration order is modelled as first-occurrence order. -/
def findSimilarColumns (validColumns : List (List String)) (colLower : String) :
    List String :=
  ((validColumns.flatten.dedup).filter (fun validCol =>
    strContains validCol colLower || strContains colLower validCol)).take 3

/-- The error emitted for an unknown column (sql_validator.py:106-112). -/
def colErrString (validColumns : List (List String)) (col : String) : String :=
  let suggestions := findSimilarColumns validColumns (pyLower col)
  if !suggestions.isEmpty then
    "Column '" ++ col ++ "' not found in any table schema. Did you mean: " ++
      String.intercalate ", " suggestions ++ "?"
  else
    "Column '" ++ col ++ "' not found in any table schema"

/-- Result record of `validate_sql`. -/
structure ValidationResult where
  valid : Bool
  errors : List String
deriving DecidableEq, Repr

/-- `SQLValidator.validate_sql` (sql_validator.py:33-117): empty/whitespace
input is trivially valid; otherwise table-existence errors (CTE names
skipped, three matching strategies) followed by column-existence errors
(checked against the union of all tables' columns). -/
def validate_sql (validTables : List String) (validColumns : List (List String))
    (sql : String) : ValidationResult :=
  if sql == "" || pyStrip sql == "" then ⟨true, []⟩ else
  let tblErrs := (missingTables validTables sql).map (tableErrString validTables)
  let colErrs := ((scanCols sql.data.length false sql.data).filter
    (fun p => !columnKnown validColumns (pyLower p.2))).map
    (fun p => colErrString validColumns p.2)
  let errors := tblErrs ++ colErrs
  ⟨errors.isEmpty, errors⟩

-- ----------------------------------------------------------------------
-- SQL Generator cleaning (graph_hybrid.py:62-69)
-- ----------------------------------------------------------------------

/-- Case-insensitive literal prefix match; returns the rest after the
pattern. -/
def dropPrefixCi : List Char → List Char → Option (List Char)
  | [], l => some l
  | _ :: _, [] => none
  | k :: ks, c :: cs => if ciEq c k then dropPrefixCi ks cs else none

/-- Head match for `KW\(([^)]+)\)` (case-insensitive, no word boundary):
the keyword with its opening parenthesis, a nonempty greedy run of
non-`)` characters, and `)`.  Returns capture and rest. -/
def funcCallAt (kw : List Char) (l : List Char) : Option (List Char × List Char) :=
  match dropPrefixCi kw l with
  | none => none
  | some r1 =>
    let content := r1.takeWhile (fun c => c != ')')
    match r1.dropWhile (fun c => c != ')') with
    | _ :: r2 => if content.isEmpty then none else some (content, r2)
    | [] => none

/-- The replacement `strftime('%F', content)` with format character `F`. -/
def strftimeRepl (fmt : Char) (content : List Char) : List Char :=
  "strftime('%".data ++ fmt :: '\'' :: ',' :: ' ' :: (content ++ [')'])

/-- `re.sub(r'KW\(([^)]+)\)', r"strftime('%F', \1)", s, flags=re.IGNORECASE)`
(graph_hybrid.py:67-69), fuel-indexed left-to-right non-overlapping scan. -/
def subFunc (kw : List Char) (fmt : Char) : ℕ → List Char → List Char
  | 0, l => l
  | _, [] => []
  | fuel + 1, c :: rest =>
    match funcCallAt kw (c :: rest) with
    | some (content, r) => strftimeRepl fmt content ++ subFunc kw fmt fuel r
    | none => c :: subFunc kw fmt fuel rest

/-- Python `str.replace` on character lists: left-to-right, non-overlapping
replacement of every occurrence (fuel-indexed; one character consumed per
step at minimum). -/
def replaceChars (pat repl : List Char) : ℕ → List Char → List Char
  | 0, l => l
  | _, [] => []
  | fuel + 1, c :: rest =>
    if pat.isEmpty then c :: rest
    else if pat.isPrefixOf (c :: rest) then
      repl ++ replaceChars pat repl fuel ((c :: rest).drop pat.length)
    else c :: replaceChars pat repl fuel rest

/-- Python `s.replace(pat, repl)`. -/
def pyReplace (s pat repl : String) : String :=
  String.mk (replaceChars pat.data repl.data s.data.length s.data)

/-- The deterministic SQL cleaning of `sql_generator_node`
(graph_hybrid.py:62-69): strip code fences, strip whitespace, rewrite
`YEAR(x)`/`MONTH(x)` to `strftime` calls. -/
def cleanSQL (raw : String) : String :=
  let s := pyStrip (pyReplace (pyReplace raw "```sql" "") "```" "")
  let d1 := subFunc "year(".data 'Y' s.data.length s.data
  String.mk (subFunc "month(".data 'm' d1.length d1)

-- ----------------------------------------------------------------------
-- SQLite tool (`SQLiteTool.execute_query`, sqlite_tool.py:12-33)
-- ----------------------------------------------------------------------

/-- The result dictionary of `execute_query`. -/
structure SqlResult where
  columns : List String
  rows : List (List String)
  error : Option String
deriving DecidableEq, Repr

/-- `SQLiteTool.execute_query` (sqlite_tool.py:12-33).  The database engine
is modelled by `outcome`: for each query, either the fetched columns and
rows or the raised exception's textual message.  An exception is caught and
converted to a result with empty columns/rows and the message as `error`. -/
def execute_query (outcome : String → Except String (List String × List (List String)))
    (query : String) : SqlResult :=
  match outcome query with
  | Except.ok (cols, rows) => ⟨cols, rows, none⟩
  | Except.error e => ⟨[], [], some e⟩

/-- Python truthiness of the optional error string in `if result["error"]:`
(graph_hybrid.py:94): `None` and `""` are falsy. -/
def pyTruthyOptStr : Option String → Bool
  | none => false
  | some s => s != ""

-- ----------------------------------------------------------------------
-- Workflow engine (graph_hybrid.py)
-- ----------------------------------------------------------------------

/-- `AgentState` (graph_hybrid.py:10-22).  `sql_result` is `none` before the
executor first writes it (the driver initializes it to an empty dict);
`final_answer` is `none` before synthesis. -/
structure AgentState where
  question : String
  format_hint : String
  strategy : String
  context : List RetrievedChunk
  schema : String
  sql_query : String
  sql_result : Option SqlResult
  final_answer : Option String
  explanation : String
  citations : List String
  errors : List String
  repair_count : ℕ
deriving DecidableEq, Repr

/-- The external inputs of one workflow invocation: the oracle's outputs for
each node, the document corpus with the query's similarity vector, the
schema text snapshot, and the database engine's behaviour. -/
structure Oracles where
  routerStrategy : String
  corpus : List Chunk
  sims : List ℚ
  schemaText : String
  sqlGen : ℕ → String
  execOutcome : String → Except String (List String × List (List String))
  synthAnswer : String
  synthExplanation : String

/-- `router_node` (graph_hybrid.py:26-40). -/
def router_node (o : Oracles) (s : AgentState) : AgentState :=
  { s with strategy := normalizeStrategy o.routerStrategy }

/-- `retriever_node` (graph_hybrid.py:42-47): `retriever.search(question, top_k=3)`. -/
def retriever_node (o : Oracles) (s : AgentState) : AgentState :=
  { s with context := Retriever.search o.corpus o.sims 3 }

/-- `planner_node` (graph_hybrid.py:49-52): a pass-through. -/
def planner_node (s : AgentState) : AgentState := s

/-- `sql_generator_node` (graph_hybrid.py:54-86): clean the oracle's SQL,
validate it against the schema catalog; on validation failure also record
the errors.  The oracle's output may differ per attempt; it is indexed by
the current `repair_count`. -/
def sql_generator_node (o : Oracles) (validTables : List String)
    (validColumns : List (List String)) (s : AgentState) : AgentState :=
  let schema := o.schemaText
  let sql_query := cleanSQL (o.sqlGen s.repair_count)
  let validation := validate_sql validTables validColumns sql_query
  if !validation.valid then
    { s with sql_query := sql_query, schema := schema, errors := validation.errors }
  else
    { s with sql_query := sql_query, schema := schema }

/-- `executor_node` (graph_hybrid.py:88-98).  On a truthy `error` the update
sets `errors` to the one-element list `[result["error"]]`; the state channel
has no append reducer, so this overwrites the previous `errors` value. -/
def executor_node (o : Oracles) (s : AgentState) : AgentState :=
  let result := execute_query o.execOutcome s.sql_query
  if pyTruthyOptStr result.error then
    { s with sql_result := some result, errors := [result.error.getD ""] }
  else
    { s with sql_result := some result }

/-- The fixed table list scanned for citations (graph_hybrid.py:124). -/
def citationTables : List String := ["Orders", "Order Details", "Products", "Customers"]

/-- `synthesizer_node` (graph_hybrid.py:100-136): ask the oracle, then build
citations: table names found in the SQL (case- and space-insensitively) when
`sql_query` is truthy, followed by every retrieved chunk's id. -/
def synthesizer_node (o : Oracles) (s : AgentState) : AgentState :=
  let tableCites :=
    if s.sql_query != "" then
      citationTables.filter (fun t =>
        strContains (pyLower s.sql_query) (pyLower t) ||
          strContains (dropSpaces (pyLower s.sql_query)) (dropSpaces (pyLower t)))
    else []
  { s with final_answer := some o.synthAnswer,
           explanation := o.synthExplanation,
           citations := tableCites ++ s.context.map RetrievedChunk.id }

/-- `repair_node` (graph_hybrid.py:138-150): increment `repair_count`, clear
`errors`.  (The schema-summary hint is only printed; it has no state
effect.) -/
def repair_node (s : AgentState) : AgentState :=
  { s with repair_count := s.repair_count + 1, errors := [] }

/-- `check_execution` (graph_hybrid.py:157-163). -/
def check_execution (s : AgentState) : String :=
  if !s.errors.isEmpty && s.repair_count < 2 then "repair" else "synthesize"

/-- The nodes of the compiled graph (graph_hybrid.py:167-219), plus the
terminal. -/
inductive Node where
  | router | retriever | planner | sql_generator | executor | synthesizer | repair | done
deriving DecidableEq, Repr

/-- `route_strategy`'s conditional-edge table (graph_hybrid.py:180-188):
an unmapped strategy value would make the engine raise (`none`). -/
def routeStrategy (strategy : String) : Option Node :=
  if strategy == "rag" then some Node.retriever
  else if strategy == "sql" then some Node.planner
  else if strategy == "hybrid" then some Node.retriever
  else none

/-- One engine step: run the node on the state and follow its (conditional)
outgoing edge (graph_hybrid.py:167-219). -/
def step (o : Oracles) (validTables : List String) (validColumns : List (List String)) :
    Node → AgentState → Option (Node × AgentState)
  | Node.router, s =>
    let s1 := router_node o s
    (routeStrategy s1.strategy).map (fun n => (n, s1))
  | Node.retriever, s =>
    let s1 := retriever_node o s
    some (if s1.strategy == "rag" then Node.synthesizer else Node.planner, s1)
  | Node.planner, s => some (Node.sql_generator, planner_node s)
  | Node.sql_generator, s =>
    some (Node.executor, sql_generator_node o validTables validColumns s)
  | Node.executor, s =>
    let s1 := executor_node o s
    some (if check_execution s1 == "repair" then Node.repair else Node.synthesizer, s1)
  | Node.synthesizer, s => some (Node.done, synthesizer_node o s)
  | Node.repair, s => some (Node.sql_generator, repair_node s)
  | Node.done, s => some (Node.done, s)

/-- Run the graph for at most `fuel` steps, recording the visited nodes and
the final state on reaching the terminal. -/
def runTrace (o : Oracles) (validTables : List String) (validColumns : List (List String)) :
    ℕ → Node → AgentState → Option (List Node × AgentState)
  | 0, _, _ => none
  | _ + 1, Node.done, s => some ([], s)
  | fuel + 1, n, s =>
    match step o validTables validColumns n s with
    | none => none
    | some (n1, s1) =>
      match runTrace o validTables validColumns fuel n1 s1 with
      | none => none
      | some (ns, fs) => some (n :: ns, fs)

/-- The initial state built by the batch driver (run_agent_hybrid.py:22-35). -/
def initState (question format_hint : String) : AgentState :=
  { question := question, format_hint := format_hint, strategy := "",
    context := [], schema := "", sql_query := "", sql_result := none,
    final_answer := none, explanation := "", citations := [], errors := [],
    repair_count := 0 }

-- ----------------------------------------------------------------------
-- Batch driver (`process_questions`, run_agent_hybrid.py:12-64)
-- ----------------------------------------------------------------------

/-- One input record of the batch file. -/
structure Question where
  id : String
  question : String
  format_hint : String
deriving DecidableEq, Repr

/-- One output record of the batch file (run_agent_hybrid.py:40-57). -/
structure QARecord where
  id : String
  final_answer : Option String
  sql : String
  confidence : ℚ
  explanation : String
  citations : List String
deriving DecidableEq, Repr

/-- Per-question processing at the batch-driver boundary
(run_agent_hybrid.py:37-57): the workflow invocation either returns a final
state or raises with a message. -/
def processOne (q : Question) (outcome : Except String AgentState) : QARecord :=
  match outcome with
  | Except.ok fs =>
    { id := q.id, final_answer := fs.final_answer, sql := fs.sql_query,
      confidence := if fs.errors.isEmpty then (0.8 : ℚ) else (0.4 : ℚ),
      explanation := fs.explanation, citations := fs.citations }
  | Except.error e =>
    { id := q.id, final_answer := some "Error processing request.", sql := "",
      confidence := 0, explanation := e, citations := [] }

/-- `process_questions` over the whole batch (run_agent_hybrid.py:20-58):
every question is processed in order; the per-question `try/except` means a
failure contributes a degraded record and the loop continues. -/
def process_questions (batch : List (Question × Except String AgentState)) :
    List QARecord :=
  batch.map (fun p => processOne p.1 p.2)

-- ----------------------------------------------------------------------
-- Concrete fixtures used by witnesses and counterexamples
-- ----------------------------------------------------------------------

/-- A one-chunk corpus. -/
def exChunk : Chunk := ⟨"policies::chunk0", "Returns are accepted within 30 days.", "policies"⟩

/-- Its similarity vector for a sample query. -/
def exSims : List ℚ := [1]

/-- Oracle outputs for a run whose strategy resolves to `rag`. -/
def oracleRagEx : Oracles :=
  { routerStrategy := "rag", corpus := [exChunk], sims := exSims, schemaText := "",
    sqlGen := fun _ => "", execOutcome := fun _ => Except.ok ([], []),
    synthAnswer := "30 days", synthExplanation := "From the return policy." }

/-- Oracle outputs for a run whose SQL execution raises. -/
def oracleFailEx : Oracles :=
  { routerStrategy := "sql", corpus := [], sims := [], schemaText := "",
    sqlGen := fun _ => "SELECT * FROM Foo",
    execOutcome := fun _ => Except.error "no such table: Foo",
    synthAnswer := "", synthExplanation := "" }

/-- Oracle outputs for a run whose SQL executes successfully. -/
def oracleOkEx : Oracles :=
  { routerStrategy := "sql", corpus := [], sims := [], schemaText := "",
    sqlGen := fun _ => "SELECT 1",
    execOutcome := fun _ => Except.ok (["1"], [["1"]]),
    synthAnswer := "1", synthExplanation := "" }

/-- A state carrying a pending validation error into the executor. -/
def stateWithValErr : AgentState :=
  { initState "q" "int" with
    errors := ["Table 'Foo' does not exist in schema. Valid tables: orders"],
    sql_query := "SELECT * FROM Foo" }

-- ----------------------------------------------------------------------
-- Theorems
-- ----------------------------------------------------------------------

/-- C9: for every input SQL string that is empty or consists only of
whitespace, `validate_sql` returns `valid = true` with an empty errors list,
for every schema catalog (so without consulting the schema). -/
theorem C9_empty_sql_trivially_valid (validTables : List String)
    (validColumns : List (List String)) (sql : String)
    (h : pyStrip sql = "") :
    validate_sql validTables validColumns sql = ⟨true, []⟩ := by
  unfold validate_sql
  simp [h]

/-- Witness for C9 at the concrete whitespace-only input `"  "`. -/
theorem C9_witness :
    pyStrip "  " = "" ∧ validate_sql ["orders"] [["orderid"]] "  " = ⟨true, []⟩ :=
  ⟨by decide, C9_empty_sql_trivially_valid ["orders"] [["orderid"]] "  " (by decide)⟩

/-- C2: the router lower-cases and trims the oracle's strategy output and
resolves it by keyword containment: `hybrid` iff both `"sql"` and `"rag"`
occur, else `sql` iff `"sql"` occurs, else `rag`; the result is always one
of the three strings (the router is a total function — it never raises —
and any unclassifiable output resolves to `rag`). -/
theorem C2_router_keyword_containment (raw : String) :
    (normalizeStrategy raw = "hybrid" ↔
      (strContains (pyStrip (pyLower raw)) "sql" = true ∧
        strContains (pyStrip (pyLower raw)) "rag" = true)) ∧
    (normalizeStrategy raw = "sql" ↔
      (strContains (pyStrip (pyLower raw)) "sql" = true ∧
        strContains (pyStrip (pyLower raw)) "rag" = false)) ∧
    (normalizeStrategy raw = "rag" ↔ strContains (pyStrip (pyLower raw)) "sql" = false) ∧
    (normalizeStrategy raw = "sql" ∨ normalizeStrategy raw = "rag" ∨
      normalizeStrategy raw = "hybrid") := by
  unfold normalizeStrategy
  by_cases h1 : strContains (pyStrip (pyLower raw)) "sql" <;>
    by_cases h2 : strContains (pyStrip (pyLower raw)) "rag" <;>
      simp [h1, h2]

/-- C7: a batch record's confidence is 0.8 when the final state's errors
list is empty and 0.4 when it is not; an unhandled exception yields a record
with confidence 0.0 whose explanation is the exception's text; and the batch
driver processes every question (a failing question never aborts the batch:
the records around it are produced unchanged). -/
theorem C7_confidence_and_batch_boundary :
    (∀ (q : Question) (fs : AgentState),
      (processOne q (Except.ok fs)).confidence = if fs.errors = [] then (0.8 : ℚ) else 0.4) ∧
    (∀ (q : Question) (msg : String),
      (processOne q (Except.error msg)).confidence = 0 ∧
        (processOne q (Except.error msg)).explanation = msg) ∧
    (∀ batch, (process_questions batch).length = batch.length) ∧
    (∀ pre (q : Question) (msg : String) post,
      process_questions (pre ++ (q, Except.error msg) :: post) =
        process_questions pre ++ processOne q (Except.error msg) :: process_questions post) := by
  refine ⟨fun q fs => ?_, fun q msg => ⟨rfl, rfl⟩, fun batch => ?_, fun pre q msg post => ?_⟩
  · by_cases h : fs.errors = [] <;> simp [processOne, h]
  · simp [process_questions]
  · simp [process_questions]

/-- C6 counterexample: with a pending validation error in the state, a
failing execution does not append its message to the errors list — the
executor's update replaces the list with the one-element list of the new
message. -/
theorem C6_counterexample :
    (executor_node oracleFailEx stateWithValErr).errors ≠
      stateWithValErr.errors ++ ["no such table: Foo"] ∧
    (executor_node oracleFailEx stateWithValErr).errors = ["no such table: Foo"] := by
  constructor
  · decide
  · decide

/-- C6 (amended): if executing the current SQL raises, the executor stores a
result with empty columns, empty rows and the exception's message as the
error field, and — when the message is non-empty — the workflow's errors
list is *replaced by* the one-element list containing it (not appended to);
the executor node itself never raises: its engine step always produces a
successor. -/
theorem C6_executor_error_capture (o : Oracles) (s : AgentState) (msg : String)
    (h : o.execOutcome s.sql_query = Except.error msg) (hne : msg ≠ "") :
    execute_query o.execOutcome s.sql_query = ⟨[], [], some msg⟩ ∧
    executor_node o s =
      { s with sql_result := some ⟨[], [], some msg⟩, errors := [msg] } ∧
    (∀ validTables validColumns,
      (step o validTables validColumns Node.executor s).isSome = true) := by
  have hq : execute_query o.execOutcome s.sql_query = ⟨[], [], some msg⟩ := by
    simp [execute_query, h]
  refine ⟨hq, ?_, fun validTables validColumns => by simp [step]⟩
  unfold executor_node
  rw [hq]
  simp [pyTruthyOptStr, hne]

/-- Witness for C6 at the concrete failing oracle and a concrete state. -/
theorem C6_witness :
    oracleFailEx.execOutcome stateWithValErr.sql_query =
        Except.error "no such table: Foo" ∧
    "no such table: Foo" ≠ "" ∧
    executor_node oracleFailEx stateWithValErr =
      { stateWithValErr with
        sql_result := some ⟨[], [], some "no such table: Foo"⟩,
        errors := ["no such table: Foo"] } :=
  ⟨rfl, by decide,
    (C6_executor_error_capture oracleFailEx stateWithValErr "no such table: Foo"
      rfl (by decide)).2.1⟩

/-- C10: when execution succeeds the executor writes only `sql_result` and
leaves every other field unchanged — in particular `errors` — and a state
whose pending (validation) errors survive the successful execution still
routes to the repair node while `repair_count < 2`. -/
theorem C10_executor_success_frame (o : Oracles) (s : AgentState)
    (cols : List String) (rows : List (List String))
    (h : o.execOutcome s.sql_query = Except.ok (cols, rows)) :
    executor_node o s = { s with sql_result := some ⟨cols, rows, none⟩ } ∧
    (executor_node o s).errors = s.errors ∧
    (s.errors ≠ [] → s.repair_count < 2 →
      check_execution (executor_node o s) = "repair") := by
  have hq : execute_query o.execOutcome s.sql_query = ⟨cols, rows, none⟩ := by
    simp [execute_query, h]
  have hframe : executor_node o s = { s with sql_result := some ⟨cols, rows, none⟩ } := by
    unfold executor_node
    rw [hq]
    simp [pyTruthyOptStr]
  refine ⟨hframe, by rw [hframe], fun hne hrc => ?_⟩
  rw [hframe]
  unfold check_execution
  simp [List.isEmpty_iff, hne, hrc]

/-- Witness for C10: a successful execution on a state carrying a validation
error keeps the error and routes to repair. -/
theorem C10_witness :
    oracleOkEx.execOutcome stateWithValErr.sql_query = Except.ok (["1"], [["1"]]) ∧
    stateWithValErr.errors ≠ [] ∧
    stateWithValErr.repair_count < 2 ∧
    executor_node oracleOkEx stateWithValErr =
      { stateWithValErr with sql_result := some ⟨["1"], [["1"]], none⟩ } ∧
    check_execution (executor_node oracleOkEx stateWithValErr) = "repair" := by
  have h := C10_executor_success_frame oracleOkEx stateWithValErr ["1"] [["1"]] rfl
  exact ⟨rfl, by decide, by decide, h.1, h.2.2 (by decide) (by decide)⟩

/-- C3 counterexample: the claim fails at `top_k = 0`.  Python's slice
`[-top_k:]` with `top_k = 0` is `[0:]`, the whole index list, so a
one-chunk corpus with positive similarity returns one result — more than
`top_k` chunks. -/
theorem C3_counterexample :
    ¬ ((Retriever.search [⟨"a::chunk0", "c", "a"⟩] [1] 0).length ≤ 0) := by decide

/-- C3 (amended): for every corpus, similarity vector and `top_k ≥ 1`,
search returns at most `top_k` chunks, every returned chunk has strictly
positive similarity score, results are ordered by descending score, the
returned chunk ids are pairwise distinct (the corpus ids being distinct),
and an empty corpus yields the empty sequence (that last part for every
`top_k`, including 0). -/
theorem C3_search_amended (chunks : List Chunk) (sims : List ℚ) (top_k : ℕ)
    (hk : 1 ≤ top_k) (hnd : (chunks.map Chunk.id).Nodup) :
    (Retriever.search chunks sims top_k).length ≤ top_k ∧
    List.Pairwise (fun a b => b.score ≤ a.score) (Retriever.search chunks sims top_k) ∧
    (∀ r ∈ Retriever.search chunks sims top_k, 0 < r.score) ∧
    ((Retriever.search chunks sims top_k).map RetrievedChunk.id).Nodup ∧
    (∀ sims2 k2, Retriever.search [] sims2 k2 = []) := by
  by_cases hemp : chunks.isEmpty
  · simp [Retriever.search, hemp]
  · -- abbreviations
    set n := chunks.length with hn
    set r : Fin n → Fin n → Prop := fun i j => simsAt sims i ≤ simsAt sims j with hr
    haveI : IsTotal (Fin n) r := ⟨fun a b => le_total _ _⟩
    haveI : IsTrans (Fin n) r := ⟨fun a b c => le_trans⟩
    set idxAsc : List (Fin n) := (List.finRange n).insertionSort r with hidx
    set top : List (Fin n) := (lastSlice idxAsc top_k).reverse with htop
    set kept : List (Fin n) :=
      top.filter (fun i => decide (0 < simsAt sims i)) with hkept
    set f : Fin n → RetrievedChunk := fun i =>
      { id := (chunks.get i).id, content := (chunks.get i).content,
        source := (chunks.get i).source, score := simsAt sims i } with hf
    have hsearch : Retriever.search chunks sims top_k = kept.map f := by
      simp only [Retriever.search, hemp, if_false, Bool.false_eq_true]
    have hslice : lastSlice idxAsc top_k = idxAsc.drop (idxAsc.length - top_k) := by
      unfold lastSlice
      rw [if_neg (by omega)]
    have hsubslice : (lastSlice idxAsc top_k).Sublist idxAsc := by
      rw [hslice]; exact List.drop_sublist _ _
    have hsorted : List.Sorted r idxAsc := List.sorted_insertionSort r _
    have hndidx : idxAsc.Nodup :=
      ((List.perm_insertionSort r _).symm).nodup (List.nodup_finRange n)
    have htopsorted : List.Pairwise (fun i j => r j i) top := by
      rw [htop, List.pairwise_reverse]
      exact hsorted.sublist hsubslice
    have htopnd : top.Nodup := by
      rw [htop, List.nodup_reverse]
      exact hsubslice.nodup hndidx
    have hkeptsub : kept.Sublist top := List.filter_sublist top
    have hkeptsorted : List.Pairwise (fun i j => r j i) kept :=
      htopsorted.sublist hkeptsub
    have hkeptnd : kept.Nodup := hkeptsub.nodup htopnd
    have hkeptlen : kept.length ≤ top_k := by
      have h1 : kept.length ≤ top.length := hkeptsub.length_le
      have h2 : top.length ≤ top_k := by
        rw [htop, List.length_reverse, hslice, List.length_drop]
        omega
      omega
    refine ⟨?_, ?_, ?_, ?_, fun sims2 k2 => rfl⟩
    · rw [hsearch, List.length_map]; exact hkeptlen
    · rw [hsearch, List.pairwise_map]
      exact hkeptsorted.imp (fun h => h)
    · rw [hsearch]
      intro x hx
      rcases List.mem_map.mp hx with ⟨i, hi, hfi⟩
      have := (List.mem_filter.mp hi).2
      rw [← hfi]
      simpa [hf] using of_decide_eq_true this
    · rw [hsearch, List.map_map]
      refine List.Nodup.map_on ?_ hkeptnd
      intro i _ j _ hij
      have hij2 : (chunks.get i).id = (chunks.get j).id := hij
      have : i = j := by
        have hi' : (i : ℕ) < (chunks.map Chunk.id).length := by simp [i.2]
        have hj' : (j : ℕ) < (chunks.map Chunk.id).length := by simp [j.2]
        have := (@List.Nodup.getElem_inj_iff _ _ hnd i hi' j hj').mp ?_
        · exact Fin.ext this
        · simpa [List.getElem_map] using hij2
      exact this
/-- Witness for C3 at a concrete one-chunk corpus and `top_k = 1`. -/
theorem C3_witness :
    1 ≤ 1 ∧ ([⟨"a::chunk0", "c", "a"⟩].map Chunk.id).Nodup ∧
    ((Retriever.search [⟨"a::chunk0", "c", "a"⟩] [1] 1).length ≤ 1 ∧
      List.Pairwise (fun a b => b.score ≤ a.score)
        (Retriever.search [⟨"a::chunk0", "c", "a"⟩] [1] 1) ∧
      (∀ r ∈ Retriever.search [⟨"a::chunk0", "c", "a"⟩] [1] 1, 0 < r.score) ∧
      ((Retriever.search [⟨"a::chunk0", "c", "a"⟩] [1] 1).map RetrievedChunk.id).Nodup ∧
      (∀ sims2 k2, Retriever.search [] sims2 k2 = [])) :=
  ⟨by decide, by decide,
    C3_search_amended [⟨"a::chunk0", "c", "a"⟩] [1] 1 (by decide) (by decide)⟩

/-- Helper: a non-empty query whose single extracted table name matches the
schema, with no CTE names and no `alias.column` tokens, validates cleanly. -/
theorem validate_single_table (validTables : List String)
    (validColumns : List (List String)) (sql cand : String)
    (hne : (sql == "" || pyStrip sql == "") = false)
    (hfound : foundTablesOf sql = [cand])
    (hcte : cteNamesOf sql = [])
    (hcols : scanCols sql.data.length false sql.data = [])
    (hmatch : tableMatches validTables (pyStrip cand) = true) :
    validate_sql validTables validColumns sql = ⟨true, []⟩ := by
  unfold validate_sql
  rw [hne]
  simp only [Bool.false_eq_true, if_false, missingTables, hfound, hcte, hcols]
  simp [hmatch]

/-- C4: table-name validation is invariant under case and under
CamelCase-versus-space-separated naming: against any schema catalog
containing the table `Order Details` (stored lowercased), the candidates
`OrderDetails`, `orderdetails` and `Order Details` all match, and SQL
referencing the table in each spelling validates identically (all
accepted). -/
theorem C4_table_matching_invariance (validTables : List String) (validColumns : List (List String))
    (hmem : "order details" ∈ validTables) :
    tableMatches validTables "OrderDetails" = true ∧
    tableMatches validTables "orderdetails" = true ∧
    tableMatches validTables "Order Details" = true ∧
    validate_sql validTables validColumns "SELECT * FROM OrderDetails" = ⟨true, []⟩ ∧
    validate_sql validTables validColumns "SELECT * FROM orderdetails" = ⟨true, []⟩ ∧
    validate_sql validTables validColumns "SELECT * FROM [Order Details]" = ⟨true, []⟩ := by
  have h1 : tableMatches validTables "OrderDetails" = true := by
    unfold tableMatches
    exact List.any_eq_true.mpr ⟨"order details", hmem, by decide⟩
  have h2 : tableMatches validTables "orderdetails" = true := by
    unfold tableMatches
    exact List.any_eq_true.mpr ⟨"order details", hmem, by decide⟩
  have h3 : tableMatches validTables "Order Details" = true := by
    unfold tableMatches
    exact List.any_eq_true.mpr ⟨"order details", hmem, by decide⟩
  refine ⟨h1, h2, h3, ?_, ?_, ?_⟩
  · exact validate_single_table _ _ _ "OrderDetails" (by decide) (by decide) (by decide)
      (by decide) (by rwa [show pyStrip "OrderDetails" = "OrderDetails" from by decide])
  · exact validate_single_table _ _ _ "orderdetails" (by decide) (by decide) (by decide)
      (by decide) (by rwa [show pyStrip "orderdetails" = "orderdetails" from by decide])
  · exact validate_single_table _ _ _ "Order Details" (by decide) (by decide) (by decide)
      (by decide) (by rwa [show pyStrip "Order Details" = "Order Details" from by decide])

/-- Witness for C4 at the concrete catalog `["order details"]`. -/
theorem C4_witness :
    "order details" ∈ ["order details"] ∧
    (tableMatches ["order details"] "OrderDetails" = true ∧
      tableMatches ["order details"] "orderdetails" = true ∧
      tableMatches ["order details"] "Order Details" = true ∧
      validate_sql ["order details"] [] "SELECT * FROM OrderDetails" = ⟨true, []⟩ ∧
      validate_sql ["order details"] [] "SELECT * FROM orderdetails" = ⟨true, []⟩ ∧
      validate_sql ["order details"] [] "SELECT * FROM [Order Details]" = ⟨true, []⟩) :=
  ⟨by decide, C4_table_matching_invariance ["order details"] [] (by decide)⟩

/-- Word characters are not whitespace. -/
theorem wordChar_not_ws (c : Char) (h : isWordChar c = true) : c.isWhitespace = false := by
  by_contra h2
  have h3 : c.isWhitespace = true := by simpa using h2
  have h4 : c = ' ' ∨ c = '\t' ∨ c = '\r' ∨ c = '\n' := by
    simp [Char.isWhitespace] at h3; tauto
  rcases h4 with h5 | h5 | h5 | h5 <;> subst h5 <;> exact absurd h (by decide)

/-- Dropping leading whitespace from a whitespace-free list is the identity. -/
theorem dropWhile_ws_eq_self (l : List Char) (h : ∀ c ∈ l, c.isWhitespace = false) :
    l.dropWhile Char.isWhitespace = l := by
  cases l with
  | nil => rfl
  | cons a t => rw [List.dropWhile_cons]; simp [h a (by simp)]

/-- Stripping a string made of word characters changes nothing. -/
theorem pyStrip_word (s : String) (h : ∀ c ∈ s.data, isWordChar c = true) :
    pyStrip s = s := by
  apply String.ext
  show stripChars s.data = s.data
  unfold stripChars
  rw [dropWhile_ws_eq_self _ (fun c hc => wordChar_not_ws c (h c hc))]
  rw [dropWhile_ws_eq_self _ (fun c hc => wordChar_not_ws c (h c (List.mem_reverse.mp hc)))]
  exact List.reverse_reverse _

/-- A successful CTE head match captures the greedy nonempty word run. -/
theorem cteAt_word (l w r : List Char) (h : cteAt l = some (w, r)) :
    w ≠ [] ∧ ∀ c ∈ w, isWordChar c = true := by
  have hw : w = l.takeWhile isWordChar ∧ ¬(l.takeWhile isWordChar).isEmpty = true := by
    simp only [cteAt] at h
    split at h
    · exact absurd h (by simp)
    · split at h
      · exact absurd h (by simp)
      · split at h
        · split at h
          · split at h
            · simp at h
              exact ⟨h.1.symm, by assumption⟩
            · exact absurd h (by simp)
          · exact absurd h (by simp)
        · exact absurd h (by simp)
  refine ⟨?_, ?_⟩
  · intro hnil
    rw [hnil] at hw
    exact hw.2 (by rw [← hw.1]; rfl)
  · intro c hc
    rw [hw.1] at hc
    exact List.mem_takeWhile_imp hc

/-- Every name captured by the CTE scan is a nonempty word-character run. -/
theorem scanCTEs_mem (fuel : ℕ) (b : Bool) (l : List Char) (name : String)
    (h : name ∈ scanCTEs fuel b l) :
    name.data ≠ [] ∧ ∀ c ∈ name.data, isWordChar c = true := by
  induction fuel generalizing b l with
  | zero => simp [scanCTEs] at h
  | succ n ih =>
    cases l with
    | nil => simp [scanCTEs] at h
    | cons c rest =>
      rw [scanCTEs] at h
      by_cases hb : (!b && isWordChar c) = true
      · rw [if_pos hb] at h
        rcases hc : cteAt (c :: rest) with _ | ⟨w, r⟩
        · rw [hc] at h; exact ih _ _ h
        · rw [hc] at h
          rcases List.mem_cons.mp h with h1 | h1
          · subst h1
            have h2 := cteAt_word _ _ _ hc
            exact ⟨h2.1, h2.2⟩
          · exact ih _ _ h1
      · rw [if_neg hb] at h; exact ih _ _ h

/-- The unknown-table error message determines the offending table name. -/
theorem tableErrString_inj (vt : List String) (a b : String)
    (h : tableErrString vt a = tableErrString vt b) : a = b := by
  unfold tableErrString at h
  have h2 := congrArg String.data h
  simp only [String.data_append, List.append_assoc] at h2
  have h3 := List.append_cancel_left h2
  exact String.ext (List.append_cancel_right h3)

/-- Unknown-table errors start with `T`. -/
theorem tableErrString_head (vt : List String) (n : String) :
    (tableErrString vt n).data.head? = some 'T' := by
  unfold tableErrString
  rw [String.data_append, String.data_append, String.data_append]
  rfl

/-- Unknown-column errors start with `C`. -/
theorem colErrString_head (vc : List (List String)) (col : String) :
    (colErrString vc col).data.head? = some 'C' := by
  simp only [colErrString]
  split
  · rw [String.data_append, String.data_append, String.data_append]
    rfl
  · rw [String.data_append, String.data_append]
    rfl

/-- The two error families are disjoint: different leading characters. -/
theorem tableErr_ne_colErr (vt : List String) (vc : List (List String))
    (n col : String) : tableErrString vt n ≠ colErrString vc col := by
  intro h
  have h2 : (tableErrString vt n).data.head? = (colErrString vc col).data.head? := by
    rw [h]
  rw [tableErrString_head, colErrString_head] at h2
  exact absurd (Option.some.inj h2) (by decide)

/-- C5: for every SQL string containing a `WITH` word, any identifier
immediately followed by `AS (` is collected as a CTE name and excluded from
table-existence checking: such a name is never among the missing tables, and
its unknown-table error message never appears in the validator's errors —
for every schema catalog, in particular when no base table of that name
exists. -/
theorem C5_cte_names_never_missing (sql name : String) (vt : List String)
    (vc : List (List String))
    (hwith : hasWithWord false sql.data = true)
    (hname : name ∈ scanCTEs sql.data.length false sql.data) :
    name ∉ missingTables vt sql ∧
    tableErrString vt name ∉ (validate_sql vt vc sql).errors := by
  have hword := scanCTEs_mem _ _ _ _ hname
  have hstrip : pyStrip name = name := pyStrip_word _ hword.2
  have hc : cteNamesOf sql = scanCTEs sql.data.length false sql.data := by
    simp [cteNamesOf, hwith]
  have hnm : name ∉ missingTables vt sql := by
    intro hmem
    unfold missingTables at hmem
    have h2 := (List.mem_filter.mp hmem).2
    simp only [hc, hstrip] at h2
    rw [Bool.and_eq_true] at h2
    have h3 := h2.1
    rw [Bool.not_eq_true'] at h3
    have hcontains :
        ((scanCTEs sql.data.length false sql.data).map pyLower).contains (pyLower name)
          = true := by
      rw [List.contains_eq_any_beq, List.any_eq_true]
      exact ⟨pyLower name, List.mem_map_of_mem _ hname, by simp⟩
    rw [h3] at hcontains
    exact absurd hcontains (by simp)
  refine ⟨hnm, ?_⟩
  intro habs
  unfold validate_sql at habs
  split at habs
  · simp at habs
  · rcases List.mem_append.mp habs with h1 | h1
    · rcases List.mem_map.mp h1 with ⟨t, ht, he⟩
      have := tableErrString_inj vt t name he
      subst this
      exact hnm ht
    · rcases List.mem_map.mp h1 with ⟨p, hp, he⟩
      exact tableErr_ne_colErr vt vc name p.2 he.symm

/-- Witness for C5: the CTE `recent` of a concrete query, against a schema
with no table of that name. -/
theorem C5_witness :
    hasWithWord false "WITH recent AS (SELECT 1) SELECT * FROM recent".data = true ∧
    "recent" ∈ scanCTEs "WITH recent AS (SELECT 1) SELECT * FROM recent".data.length
      false "WITH recent AS (SELECT 1) SELECT * FROM recent".data ∧
    ("recent" ∉ missingTables ["orders"] "WITH recent AS (SELECT 1) SELECT * FROM recent" ∧
      tableErrString ["orders"] "recent" ∉
        (validate_sql ["orders"] [["orderid"]]
          "WITH recent AS (SELECT 1) SELECT * FROM recent").errors) :=
  ⟨by decide, by decide,
    C5_cte_names_never_missing "WITH recent AS (SELECT 1) SELECT * FROM recent"
      "recent" ["orders"] [["orderid"]] (by decide) (by decide)⟩

/-- The generator node never changes `repair_count`. -/
theorem gen_rc (o : Oracles) (vt : List String) (vc : List (List String)) (s : AgentState) :
    (sql_generator_node o vt vc s).repair_count = s.repair_count := by
  simp only [sql_generator_node]
  split <;> rfl

/-- The executor node never changes `repair_count`. -/
theorem exec_rc (o : Oracles) (s : AgentState) :
    (executor_node o s).repair_count = s.repair_count := by
  simp only [executor_node]
  split <;> rfl

/-- From the generator with `repair_count = 2` the run always synthesizes:
one more generation, execution, then synthesis regardless of errors. -/
theorem run_gen_rc2 (o : Oracles) (vt : List String) (vc : List (List String))
    (s : AgentState) (h : s.repair_count = 2) (f : ℕ) :
    runTrace o vt vc (f + 4) Node.sql_generator s =
      some ([Node.sql_generator, Node.executor, Node.synthesizer],
        synthesizer_node o (executor_node o (sql_generator_node o vt vc s))) := by
  have h1 : check_execution (executor_node o (sql_generator_node o vt vc s)) = "synthesize" := by
    unfold check_execution
    rw [exec_rc, gen_rc, h]
    simp
  simp [runTrace, step, h1]

/-- From the generator with `repair_count = 1`: at most 2 more generations,
and synthesis is reached. -/
theorem run_gen_rc1 (o : Oracles) (vt : List String) (vc : List (List String))
    (s : AgentState) (h : s.repair_count = 1) (f : ℕ) :
    ∃ path fs, runTrace o vt vc (f + 7) Node.sql_generator s = some (path, fs) ∧
      path.count Node.sql_generator ≤ 2 ∧ Node.synthesizer ∈ path := by
  by_cases hc : (executor_node o (sql_generator_node o vt vc s)).errors.isEmpty
  · have h1 : check_execution (executor_node o (sql_generator_node o vt vc s)) = "synthesize" := by
      unfold check_execution
      simp [hc]
    refine ⟨[Node.sql_generator, Node.executor, Node.synthesizer],
      synthesizer_node o (executor_node o (sql_generator_node o vt vc s)), ?_, by decide, by simp⟩
    simp [runTrace, step, h1]
  · have h1 : check_execution (executor_node o (sql_generator_node o vt vc s)) = "repair" := by
      unfold check_execution
      rw [exec_rc, gen_rc, h]
      simp [hc]
    have h2 : (repair_node (executor_node o (sql_generator_node o vt vc s))).repair_count = 2 := by
      unfold repair_node
      simp [exec_rc, gen_rc, h]
    have h3 : check_execution (executor_node o (sql_generator_node o vt vc
        (repair_node (executor_node o (sql_generator_node o vt vc s))))) = "synthesize" := by
      unfold check_execution
      rw [exec_rc, gen_rc, h2]
      simp
    refine ⟨[Node.sql_generator, Node.executor, Node.repair,
        Node.sql_generator, Node.executor, Node.synthesizer],
      synthesizer_node o (executor_node o (sql_generator_node o vt vc
        (repair_node (executor_node o (sql_generator_node o vt vc s))))),
      ?_, by decide, by simp⟩
    simp [runTrace, step, h1, h3]

/-- From the generator with `repair_count = 0`: at most 3 generations in
total, and synthesis is reached. -/
theorem run_gen_rc0 (o : Oracles) (vt : List String) (vc : List (List String))
    (s : AgentState) (h : s.repair_count = 0) (f : ℕ) :
    ∃ path fs, runTrace o vt vc (f + 10) Node.sql_generator s = some (path, fs) ∧
      path.count Node.sql_generator ≤ 3 ∧ Node.synthesizer ∈ path := by
  by_cases hc : (executor_node o (sql_generator_node o vt vc s)).errors.isEmpty
  · have h1 : check_execution (executor_node o (sql_generator_node o vt vc s)) = "synthesize" := by
      unfold check_execution
      simp [hc]
    refine ⟨[Node.sql_generator, Node.executor, Node.synthesizer],
      synthesizer_node o (executor_node o (sql_generator_node o vt vc s)), ?_, by decide, by simp⟩
    simp [runTrace, step, h1]
  · have h1 : check_execution (executor_node o (sql_generator_node o vt vc s)) = "repair" := by
      unfold check_execution
      rw [exec_rc, gen_rc, h]
      simp [hc]
    have h2 : (repair_node (executor_node o (sql_generator_node o vt vc s))).repair_count = 1 := by
      unfold repair_node
      simp [exec_rc, gen_rc, h]
    by_cases hc2 : (executor_node o (sql_generator_node o vt vc
        (repair_node (executor_node o (sql_generator_node o vt vc s))))).errors.isEmpty
    · have h3 : check_execution (executor_node o (sql_generator_node o vt vc
          (repair_node (executor_node o (sql_generator_node o vt vc s))))) = "synthesize" := by
        unfold check_execution
        simp [hc2]
      refine ⟨[Node.sql_generator, Node.executor, Node.repair,
          Node.sql_generator, Node.executor, Node.synthesizer],
        synthesizer_node o (executor_node o (sql_generator_node o vt vc
          (repair_node (executor_node o (sql_generator_node o vt vc s))))),
        ?_, by decide, by simp⟩
      simp [runTrace, step, h1, h3]
    · have h3 : check_execution (executor_node o (sql_generator_node o vt vc
          (repair_node (executor_node o (sql_generator_node o vt vc s))))) = "repair" := by
        unfold check_execution
        rw [exec_rc, gen_rc, h2]
        simp [hc2]
      have h4 : (repair_node (executor_node o (sql_generator_node o vt vc
          (repair_node (executor_node o (sql_generator_node o vt vc s)))))).repair_count = 2 := by
        unfold repair_node
        simp [exec_rc, gen_rc, h]
      have h5 : check_execution (executor_node o (sql_generator_node o vt vc
          (repair_node (executor_node o (sql_generator_node o vt vc
            (repair_node (executor_node o (sql_generator_node o vt vc s)))))))) = "synthesize" := by
        unfold check_execution
        rw [exec_rc, gen_rc, h4]
        simp
      refine ⟨[Node.sql_generator, Node.executor, Node.repair,
          Node.sql_generator, Node.executor, Node.repair,
          Node.sql_generator, Node.executor, Node.synthesizer],
        synthesizer_node o (executor_node o (sql_generator_node o vt vc
          (repair_node (executor_node o (sql_generator_node o vt vc
            (repair_node (executor_node o (sql_generator_node o vt vc s)))))))),
        ?_, by decide, by simp⟩
      simp [runTrace, step, h1, h3, h5]

/-- One engine step prepends its node to the remaining trace. -/
theorem runTrace_cons (o : Oracles) (vt : List String) (vc : List (List String))
    (f : ℕ) (n : Node) (s : AgentState) (n1 : Node) (s1 : AgentState)
    (hn : n ≠ Node.done) (hs : step o vt vc n s = some (n1, s1)) :
    runTrace o vt vc (f + 1) n s =
      (runTrace o vt vc f n1 s1).map (fun p => (n :: p.1, p.2)) := by
  cases n
  all_goals try exact absurd rfl hn
  all_goals
    simp only [runTrace, hs]
  all_goals
    cases hr : runTrace o vt vc f n1 s1 with
    | none => simp
    | some p => simp

/-- The router's normalization always lands in the routing table. -/
theorem normalizeStrategy_cases (raw : String) :
    normalizeStrategy raw = "sql" ∨ normalizeStrategy raw = "rag" ∨
      normalizeStrategy raw = "hybrid" := by
  unfold normalizeStrategy
  by_cases h1 : strContains (pyStrip (pyLower raw)) "sql" <;>
    by_cases h2 : strContains (pyStrip (pyLower raw)) "rag" <;> simp [h1, h2]

/-- A run whose strategy resolves to `rag` visits exactly router, retriever,
synthesizer. -/
theorem run_rag_trace (o : Oracles) (vt : List String) (vc : List (List String))
    (q fh : String) (h : normalizeStrategy o.routerStrategy = "rag") :
    runTrace o vt vc 15 Node.router (initState q fh) =
      some ([Node.router, Node.retriever, Node.synthesizer],
        synthesizer_node o (retriever_node o (router_node o (initState q fh)))) := by
  have e1 : step o vt vc Node.router (initState q fh) =
      some (Node.retriever, router_node o (initState q fh)) := by
    simp [step, router_node, routeStrategy, h]
  have e2 : step o vt vc Node.retriever (router_node o (initState q fh)) =
      some (Node.synthesizer, retriever_node o (router_node o (initState q fh))) := by
    simp [step, retriever_node, router_node, h]
  have e3 : step o vt vc Node.synthesizer
      (retriever_node o (router_node o (initState q fh))) =
      some (Node.done, synthesizer_node o (retriever_node o (router_node o (initState q fh)))) := by
    simp [step]
  rw [show (15 : ℕ) = 14 + 1 by norm_num,
    runTrace_cons o vt vc 14 _ _ _ _ (by decide) e1]
  rw [show (14 : ℕ) = 13 + 1 by norm_num,
    runTrace_cons o vt vc 13 _ _ _ _ (by decide) e2]
  rw [show (13 : ℕ) = 12 + 1 by norm_num,
    runTrace_cons o vt vc 12 _ _ _ _ (by decide) e3]
  simp [runTrace]

/-- C1: after the executor the run goes to repair iff the errors list is
non-empty and `repair_count < 2`, otherwise to the synthesizer; the repair
node increments `repair_count` by exactly 1 and clears the errors; and for
every oracle behaviour and every question the workflow invokes the SQL
generator at most 3 times (1 initial + 2 repairs) and always reaches
synthesis. -/
theorem C1_sql_generation_capped :
    (∀ s : AgentState, check_execution s = "repair" ↔ s.errors ≠ [] ∧ s.repair_count < 2) ∧
    (∀ s : AgentState, check_execution s = "repair" ∨ check_execution s = "synthesize") ∧
    (∀ s : AgentState, (repair_node s).repair_count = s.repair_count + 1 ∧
      (repair_node s).errors = []) ∧
    (∀ (o : Oracles) (vt : List String) (vc : List (List String)) (q fh : String),
      ∃ path fs, runTrace o vt vc 15 Node.router (initState q fh) = some (path, fs) ∧
        path.count Node.sql_generator ≤ 3 ∧ Node.synthesizer ∈ path) := by
  refine ⟨?_, ?_, fun s => ⟨rfl, rfl⟩, ?_⟩
  · intro s
    unfold check_execution
    by_cases h1 : s.errors.isEmpty <;> by_cases h2 : s.repair_count < 2 <;>
      simp [h1, h2, List.isEmpty_iff] <;> simp [List.isEmpty_iff] at h1 <;> tauto
  · intro s
    unfold check_execution
    split <;> simp
  · intro o vt vc q fh
    rcases normalizeStrategy_cases o.routerStrategy with h | h | h
    · -- sql: router → planner → generator loop
      have e1 : step o vt vc Node.router (initState q fh) =
          some (Node.planner, router_node o (initState q fh)) := by
        simp [step, router_node, routeStrategy, h]
      have e2 : step o vt vc Node.planner (router_node o (initState q fh)) =
          some (Node.sql_generator, router_node o (initState q fh)) := by
        simp [step, planner_node]
      have hrc : (router_node o (initState q fh)).repair_count = 0 := rfl
      obtain ⟨path, fs, hrun, hcount, hmem⟩ :=
        run_gen_rc0 o vt vc (router_node o (initState q fh)) hrc 3
      have hrun13 : runTrace o vt vc 13 Node.sql_generator (router_node o (initState q fh)) =
          some (path, fs) := by
        rw [show (13 : ℕ) = 3 + 10 by norm_num]
        exact hrun
      refine ⟨Node.router :: Node.planner :: path, fs, ?_, ?_, by simp [hmem]⟩
      · rw [show (15 : ℕ) = 14 + 1 by norm_num,
          runTrace_cons o vt vc 14 _ _ _ _ (by decide) e1]
        rw [show (14 : ℕ) = 13 + 1 by norm_num,
          runTrace_cons o vt vc 13 _ _ _ _ (by decide) e2]
        rw [hrun13]
        rfl
      · simp [List.count_cons]
        omega
    · -- rag: no SQL generation at all
      refine ⟨[Node.router, Node.retriever, Node.synthesizer],
        synthesizer_node o (retriever_node o (router_node o (initState q fh))),
        run_rag_trace o vt vc q fh h, by decide, by simp⟩
    · -- hybrid: router → retriever → planner → generator loop
      have e1 : step o vt vc Node.router (initState q fh) =
          some (Node.retriever, router_node o (initState q fh)) := by
        simp [step, router_node, routeStrategy, h]
      have e2 : step o vt vc Node.retriever (router_node o (initState q fh)) =
          some (Node.planner, retriever_node o (router_node o (initState q fh))) := by
        simp [step, retriever_node, router_node, h]
      have e3 : step o vt vc Node.planner
          (retriever_node o (router_node o (initState q fh))) =
          some (Node.sql_generator, retriever_node o (router_node o (initState q fh))) := by
        simp [step, planner_node]
      have hrc : (retriever_node o (router_node o (initState q fh))).repair_count = 0 := rfl
      obtain ⟨path, fs, hrun, hcount, hmem⟩ :=
        run_gen_rc0 o vt vc (retriever_node o (router_node o (initState q fh))) hrc 2
      have hrun12 : runTrace o vt vc 12 Node.sql_generator
          (retriever_node o (router_node o (initState q fh))) = some (path, fs) := by
        rw [show (12 : ℕ) = 2 + 10 by norm_num]
        exact hrun
      refine ⟨Node.router :: Node.retriever :: Node.planner :: path, fs, ?_, ?_, by simp [hmem]⟩
      · rw [show (15 : ℕ) = 14 + 1 by norm_num,
          runTrace_cons o vt vc 14 _ _ _ _ (by decide) e1]
        rw [show (14 : ℕ) = 13 + 1 by norm_num,
          runTrace_cons o vt vc 13 _ _ _ _ (by decide) e2]
        rw [show (13 : ℕ) = 12 + 1 by norm_num,
          runTrace_cons o vt vc 12 _ _ _ _ (by decide) e3]
        rw [hrun12]
        rfl
      · simp [List.count_cons]
        omega

/-- C8: a question whose strategy resolves to `rag` runs exactly
router → retriever → synthesizer — it never visits the SQL generator or the
executor — `sql_query` is still the empty string in the final state, and the
citations are exactly the retrieved document chunk ids (no table names). -/
theorem C8_rag_path_no_sql (o : Oracles) (vt : List String) (vc : List (List String))
    (q fh : String) (h : normalizeStrategy o.routerStrategy = "rag") :
    ∃ fs, runTrace o vt vc 15 Node.router (initState q fh) =
        some ([Node.router, Node.retriever, Node.synthesizer], fs) ∧
      fs.sql_query = "" ∧
      fs.citations = (Retriever.search o.corpus o.sims 3).map RetrievedChunk.id := by
  refine ⟨synthesizer_node o (retriever_node o (router_node o (initState q fh))),
    run_rag_trace o vt vc q fh h, ?_, ?_⟩
  · rfl
  · simp [synthesizer_node, retriever_node, router_node, initState]

/-- Witness for C8 with a concrete rag-classified oracle. -/
theorem C8_witness :
    normalizeStrategy oracleRagEx.routerStrategy = "rag" ∧
    (∃ fs, runTrace oracleRagEx ["orders"] [["orderid"]] 15 Node.router
        (initState "What is the return policy?" "str") =
        some ([Node.router, Node.retriever, Node.synthesizer], fs) ∧
      fs.sql_query = "" ∧
      fs.citations =
        (Retriever.search oracleRagEx.corpus oracleRagEx.sims 3).map RetrievedChunk.id) :=
  ⟨by decide,
    C8_rag_path_no_sql oracleRagEx ["orders"] [["orderid"]]
      "What is the return policy?" "str" (by decide)⟩
